import Mathlib

/-!
Verification of the AI commit-message extension (repository
`gurumee329/AI_CommitMessage`) against its natural-language specification.

The development shallowly embeds the TypeScript sources:

* `src/src/aicommitmessage/commit-msg-gen/generators/chatgpt-msg-generator.ts`
  (namespace `ChatgptTs` for its prompt builder, and the shared
  `ChatgptMsgGenerator` namespace for the response handling and the
  constructor's endpoint mapping, which are identical in both copies);
* `src/unnamed/part_000`, which holds a second copy of the generator
  (namespace `Part000` for its prompt builder), the approval flow
  `openTempFileWithMessage`, and the `setOpenaiApiKey` wizard.

Pure functions become Lean functions; the event-driven approval flow and the
interactive wizard become functions over explicit scripts of external events
or user responses; the network reply is an explicit `ChatResponse` value;
code that throws returns `Except`.
-/

/-- Role of a chat message, as used by both copies of the prompt builder. -/
inductive ChatRole where
  | system
  | user
deriving DecidableEq

/-- One element of the `ChatCompletionMessageParam[]` array sent to the API. -/
structure ChatCompletionMessageParam where
  role : ChatRole
  content : String
deriving DecidableEq

namespace JsString

/-- Whitespace as trimmed by JavaScript `String.prototype.trim` (restricted
to the ASCII whitespace and line-terminator characters, which are the only
ones this program can produce). -/
def isJsWhitespace (c : Char) : Bool :=
  c == ' ' || c == '\t' || c == '\n' || c == '\r' || c == '\x0b' || c == '\x0c'

/-- Trim JavaScript whitespace from both ends of a character list. -/
def trimChars (l : List Char) : List Char :=
  ((l.dropWhile isJsWhitespace).reverse.dropWhile isJsWhitespace).reverse

/-- JavaScript `String.prototype.trim`, modelled on the character list. -/
def trim (s : String) : String :=
  ⟨trimChars s.data⟩

/-- JavaScript `String.prototype.toLowerCase` (ASCII case mapping, which
covers every endpoint string this program compares). -/
def toLowerCase (s : String) : String :=
  ⟨s.data.map Char.toLower⟩

/-- JavaScript `s.startsWith(pre)`, modelled on the character lists. -/
def startsWith (s pre : String) : Bool :=
  pre.data.isPrefixOf s.data

end JsString

namespace ChatgptTs

/-- Fixed system instruction of `createInitMessagesPrompt` in
`chatgpt-msg-generator.ts` (a constant string). -/
def systemContent : String :=
  "You are to act as the author of a commit message in git. Your task is to generate commit messages according to Conventional Commits 1.0.0 rules. I\x27ll send you the outputs of the \x27git diff\x27 command, and you convert it into the one commit message. Do not prefix the commit with anything and use the present tense. You should never add a description to a commit, only commit message."

/-- Constant part of the `.ts` user instruction before the first
`${delimeter}` interpolation. -/
def userPre : String :=
  "\nBased on the following information, generate a Git commit message written in Korean, must be in Korean:\n\n- Changes made:\n  - Modified files: [list of modified files]\n  - Added files: [list of added files]\n  - Deleted files: [list of deleted files]\n- Main purpose and reason for the changes:\n  - [Explanation of the purpose and reason for the changes]\n\nThe generated message should follow these guidelines:\n1. **Title:**\n   - Should be 50 characters or less.\n   - Use imperative mood (e.g., \x22Fix bug\x22 instead of \x22Fixed bug\x22).\n   - Capitalize the first letter.\n   - Do not end with a period.\n2. **Description (if necessary):**\n   - Explain what and why the changes were made.\n   - Each line should be 72 characters or less.\n   - List important changes if needed.\n\n**Example:**\nTitle: Improve user authentication\n\nBody:\nThis commit enhances the user authentication process by integrating JWT for token-based authentication. Additionally, it refines error messages to be more user-friendly in case of login failures.\n\nKey changes:\n"

/-- Constant part of the `.ts` user instruction between the two
`${delimeter}` interpolations. -/
def userMid : String :=
  " Added JWT for token-based authentication\n"

/-- Constant tail of the `.ts` user instruction after the second
`${delimeter}` interpolation. -/
def userTail : String :=
  " Improved error messages for login failures\n\nNow, please generate a commit message based on the provided information.\n"

/-- User instruction content built by the `.ts` template literal.  It
interpolates only `delimeter`; the `language` parameter of
`createInitMessagesPrompt` is never used by this version. -/
def userContent (delimeter : String) : String :=
  userPre ++ delimeter ++ userMid ++ delimeter ++ userTail

/-- `createInitMessagesPrompt` of `chatgpt-msg-generator.ts`: a fixed system
instruction plus a user instruction that interpolates only the delimiter.
The `language` parameter is accepted but unused in this version (its body
hardcodes a Korean-targeted template).  The source default for `delimeter`
is `"* "`; callers here always pass it explicitly. -/
def createInitMessagesPrompt (language : String) (delimeter : String) :
    List ChatCompletionMessageParam :=
  let _ := language
  [⟨ChatRole.system, systemContent⟩, ⟨ChatRole.user, userContent delimeter⟩]

/-- `generateCommitMessageChatCompletionPrompt` of `chatgpt-msg-generator.ts`:
the two-message preamble followed by one user message carrying the raw diff. -/
def generateCommitMessageChatCompletionPrompt (diff language delimeter : String) :
    List ChatCompletionMessageParam :=
  createInitMessagesPrompt language delimeter ++ [⟨ChatRole.user, diff⟩]

end ChatgptTs

namespace Part000

/-- System instruction of `createInitMessagesPrompt` in `src/unnamed/part_000`:
a Korean template that interpolates `${language}` twice. -/
def systemContent (language : String) : String :=
  "당신은 git의 커밋 메시지 작성자로서 행동해야 하고, " ++ language ++ "을 사용해야합니다. Conventional Commits 1.0.0 규칙에 따라 커밋 메시지를 생성하는 것이 당신의 임무입니다. 가독성을 신경쓰며 적절한 개행을 하여 가이드에 충실한 커밋 메시지를 " ++ language ++ " 언어로 작성하십시오. \x27git diff\x27 명령어의 출력을 보내드릴 테니, 이를 하나의 커밋 메시지로 변환하십시오. 커밋에 아무것도 접두사로 붙이지 말고 현재형을 사용하십시오. 커밋에 설명을 추가하지 말고, 오직 커밋 메시지만 작성하십시오."

/-- Constant part of the `part_000` user instruction before the first
`${language}` interpolation. -/
def userPre : String :=
  "\nImportance of Good Commit Messages with "

/-- Constant text between the first `${language}` and the first
`${delimeter}` interpolation. -/
def userMid1 : String :=
  ":\nUse "

/-- Constant text between the first `${delimeter}` and the second
`${language}` interpolation. -/
def userMid2 : String :=
  " line delimeter.\nUse "

/-- Constant text between the second `${language}` and the second
`${delimeter}` interpolation. -/
def userMid3 : String :=
  " language.\nMust be line start with "

/-- Constant tail of the `part_000` user instruction after the second
`${delimeter}` interpolation. -/
def userTail : String :=
  " except for the empty line and first line.\n\nExplain the significance of clear and meaningful commit messages for both current team members and future maintainers.\nHighlight how well-crafted commit messages help in understanding the context and rationale behind code changes, making development and collaboration more efficient.\nStructure of a Commit Message:\n\nDescribe the standard structure, including the subject (title) and body (description).\nSubject: Should be a brief summary of the change, limited to 50 characters or less, written in the imperative mood (e.g., \x22Add feature\x22 not \x22Added feature\x22).\nBody: Provides a detailed explanation of the change, wrapped at 72 characters per line, explaining what and why the change was made.\nEmphasize the importance of separating the subject from the body with a blank line.\nGuidelines for Writing Commit Messages:\n\nImperative Mood: Use imperative mood for the subject line to match the style of auto-generated messages by commands like git merge.\nConsistent Format: Follow a consistent commit message format, such as Conventional Commits.\nClarity and Brevity: Keep messages clear and to the point, avoiding unnecessary punctuation and whitespace errors.\nCapitalization: Capitalize the first letter of the subject line and each paragraph in the body.\nAvoid Assumptions: Do not assume the reviewer understands the original problem; provide sufficient background in the body of the message.\nExamples of Good Commit Messages:\n\nCompare poor and well-written commit messages. For example, instead of git commit -m \x27Add margin\x27, use git commit -m \x27Add margin to nav items to prevent them from overlapping the logo\x27.\nExplain why detailed commit messages are more useful for future readers and maintainers.\nIntroduction to Conventional Commits:\n\nDetail the Conventional Commits format: <type>[optional scope]: <description>, with types like feat, fix, docs, etc.\nProvide examples of each type:\nfeat: feat: add new user registration form\nfix: fix: resolve null pointer exception in user service\ndocs: docs: update README with setup instructions\nExplain the optional components like the body and footer for additional context, such as breaking changes (BREAKING CHANGE: description) or issue references (Closes #123).\nAdditional Tips:\n\nSmall and Focused Commits: Keep commits small and focused on a single change or related set of changes to make reviews easier.\nContext for Reviewers: Provide sufficient context and background in the commit message to help reviewers understand the purpose and impact of the change.\nUsage of Tools: Mention tools like commitlint for enforcing commit message conventions and GitLens for understanding commit history and context.\n"

/-- User instruction content built by the `part_000` template literal: it
interpolates `${language}` and `${delimeter}` twice each, in the order
language, delimiter, language, delimiter. -/
def userContent (language delimeter : String) : String :=
  userPre ++ language ++ userMid1 ++ delimeter ++ userMid2 ++ language ++
    userMid3 ++ delimeter ++ userTail

/-- `createInitMessagesPrompt` of `src/unnamed/part_000`: a Korean system
instruction and an English user instruction, both parameterized by the
target language (the user instruction also by the delimiter).  The source
default for `delimeter` is `"* "`; callers here always pass it explicitly. -/
def createInitMessagesPrompt (language : String) (delimeter : String) :
    List ChatCompletionMessageParam :=
  [⟨ChatRole.system, systemContent language⟩,
   ⟨ChatRole.user, userContent language delimeter⟩]

/-- `generateCommitMessageChatCompletionPrompt` of `src/unnamed/part_000`:
the two-message preamble followed by one user message carrying the raw diff. -/
def generateCommitMessageChatCompletionPrompt (diff language delimeter : String) :
    List ChatCompletionMessageParam :=
  createInitMessagesPrompt language delimeter ++ [⟨ChatRole.user, diff⟩]

end Part000

/-- `message.content` of one completion choice (`string | null` in the API). -/
structure ChatMessage where
  content : Option String
deriving DecidableEq

/-- One element of the response's `choices` array. -/
structure ChatChoice where
  message : ChatMessage
deriving DecidableEq

/-- The chat-completion response, read only for its `choices` array
(the `usage` counters are consumed by logging alone and carry no
contract, so they are not modelled). -/
structure ChatResponse where
  choices : List ChatChoice
deriving DecidableEq

/-- How a `generate` call can fail. -/
inductive GenFailure where
  /-- The JavaScript runtime `TypeError` raised by
  `data?.choices[0].message` when `choices` is empty: `choices[0]` is
  `undefined` and reading `.message` of `undefined` throws. -/
  | runtimeTypeError
  /-- The explicit `throw new Error("No commit message were generated. Try again.")`. -/
  | noCommitMessage
deriving DecidableEq

namespace ChatgptMsgGenerator

/-- Response handling of `ChatgptMsgGenerator.generate` (identical in both
source copies).  The network call is abstracted: `data` is the response the
awaited call produced.  The source reads
`data?.choices[0].message` without guarding `choices[0]`, so an empty
`choices` array raises a runtime `TypeError`; otherwise `message?.content`
is taken, and a `null` or empty-string content triggers the explicit
"No commit message were generated" error, while any other content is
returned unchanged. -/
def generate (data : ChatResponse) : Except GenFailure String :=
  match data.choices with
  | [] => Except.error GenFailure.runtimeTypeError
  | c :: _ =>
    match c.message.content with
    | none => Except.error GenFailure.noCommitMessage
    | some s =>
      if s == "" then Except.error GenFailure.noCommitMessage
      else Except.ok s

/-- Modelled from the spec: the caller (`GenerateCompletionFlow`, whose code
is not under `src/`) hands the generated text to the Commit Message Writer
only when generation succeeds; a thrown error propagates and nothing is
written to the commit-message sink. -/
def commitMessageSinkWrites (data : ChatResponse) : List String :=
  match generate data with
  | Except.ok m => [m]
  | Except.error _ => []

/-- Endpoint-to-base-URL mapping performed by the `ChatgptMsgGenerator`
constructor (identical in both source copies).  `config.customEndpoint` is
an optional string; a missing or empty (falsy) value leaves `baseURL`
undefined.  Otherwise the endpoint is lowercased and trimmed before being
compared with `"perplexity"` and tested for the `"http"` prefix. -/
def constructorBaseURL (customEndpoint : Option String) : Option String :=
  match customEndpoint with
  | none => none
  | some ce =>
    if ce == "" then none
    else
      let endpoint := JsString.trim (JsString.toLowerCase ce)
      if endpoint == "perplexity" then some "https://api.perplexity.ai"
      else if JsString.startsWith endpoint "http" then some endpoint
      else none

end ChatgptMsgGenerator

namespace ApprovalFlow

/-- The explanatory header line written at the top of the scratch temp file
by `openTempFileWithMessage` (`explainingHeader` in `src/unnamed/part_000`). -/
def explainingHeader : String :=
  "# This is a generated commit message. You can edit it and save to approve it #\n\n"

/-- Scan for the `\n` that ends the regex match `#.*#.*\n`: `.` does not
match a line terminator, so the match can only end at the first terminator
after its start, and only if that terminator is `\n` (not `\r`).  Returns
the characters after the consumed `\n`. -/
def findLineNl : List Char → Option (List Char)
  | [] => none
  | c :: cs =>
    if c == '\n' then some cs
    else if c == '\r' then none
    else findLineNl cs

/-- Scan the characters after a candidate opening `#` of the regex
`#.*#.*\n`: a second `#` must occur before the first line terminator, and
that terminator must be `\n`.  Returns the characters after the match. -/
def findCloseHash : List Char → Option (List Char)
  | [] => none
  | c :: cs =>
    if c == '\n' || c == '\r' then none
    else if c == '#' then findLineNl cs
    else findCloseHash cs

/-- Left-to-right global replacement of `/#.*#.*\n/g` by the empty string,
as performed by the save handler on the scratch document's text.  The fuel
argument bounds the recursion; `stripHeaderLines` supplies `l.length`,
which always suffices because every step consumes at least one character. -/
def stripGo : Nat → List Char → List Char
  | 0, l => l
  | _ + 1, [] => []
  | fuel + 1, c :: cs =>
    if c == '#' then
      match findCloseHash cs with
      | some rest => stripGo fuel rest
      | none => c :: stripGo fuel cs
    else c :: stripGo fuel cs

/-- `text.replace(/#.*#.*\n/g, "")`: remove every match of the header
regex from the character list. -/
def stripHeaderLines (l : List Char) : List Char :=
  stripGo l.length l

/-- `editedText.replace(/#.*#.*\n/g, "").trim()`: the final text computed
by the save handler from the scratch document's content. -/
def processSavedText (s : String) : String :=
  ⟨JsString.trimChars (stripHeaderLines s.data)⟩

/-- The value the promise inside `openTempFileWithMessage` is resolved
with: `result` is true on save and false on close, `edited` is the flag the
save handler sets, and `editedMessage` is present only on save. -/
structure SaveResult where
  result : Bool
  edited : Bool
  editedMessage : Option String
deriving DecidableEq

/-- External editor events the two handlers of `openTempFileWithMessage`
can observe while the promise is pending. -/
inductive EditorEvent where
  /-- `onDidSaveTextDocument`: a document with the given file name and
  current text was saved. -/
  | didSave (fileName text : String)
  /-- `onDidChangeVisibleTextEditors`: the visible editors now show exactly
  the given file names. -/
  | visibleEditorsChanged (fileNames : List String)
deriving DecidableEq

/-- File-system and window actions performed by `openTempFileWithMessage`,
recorded in order. -/
inductive FsAction where
  | writeFile (path content : String)
  | openDoc (path : String)
  | showDoc (path : String)
  | deleteFile (path : String)
deriving DecidableEq

/-- What a single event makes the registered handlers pass to `resolve`:
the save handler fires when the saved document is the temp file, and the
close handler fires when no visible editor shows the temp file. -/
def resolveOf (tempFile : String) : EditorEvent → Option SaveResult
  | EditorEvent.didSave fileName text =>
    if fileName == tempFile then
      some ⟨true, true, some (processSavedText text)⟩
    else none
  | EditorEvent.visibleEditorsChanged fileNames =>
    if fileNames.all (fun f => !(f == tempFile)) then
      some ⟨false, false, none⟩
    else none

/-- Promise settlement: the first event whose handler calls `resolve`
determines the value; a JavaScript promise ignores every later `resolve`. -/
def firstResolution (tempFile : String) : List EditorEvent → Option SaveResult
  | [] => none
  | e :: es =>
    match resolveOf tempFile e with
    | some r => some r
    | none => firstResolution tempFile es

/-- `openTempFileWithMessage` of `src/unnamed/part_000`.  The random
temp-file path is abstracted into the `tempFile` parameter, and the
editor's behaviour into the script `events` of external events observed
while the promise is pending.  The function writes the header plus the
message, opens and shows the document, awaits the first resolving event,
disposes both handlers, deletes the temp file, and returns the result.  If
no event resolves the promise the flow never returns (`none`). -/
def openTempFileWithMessage (message tempFile : String)
    (events : List EditorEvent) : Option (SaveResult × List FsAction) :=
  match firstResolution tempFile events with
  | none => none
  | some r =>
    some (r,
      [FsAction.writeFile tempFile (explainingHeader ++ message),
       FsAction.openDoc tempFile,
       FsAction.showDoc tempFile,
       FsAction.deleteFile tempFile])

end ApprovalFlow

namespace Wizard

/-- Modelled from the spec: the helper `trimNewLines` from `@utils/text` is
imported by the sources but its definition is not under `src/`; per its name
and its use as an emptiness guard on one-line inputs, it is modelled as
removing newline characters from both ends of the string. -/
def trimNewLines (s : String) : String :=
  ⟨((s.data.dropWhile fun c => c == '\n' || c == '\r').reverse.dropWhile
      fun c => c == '\n' || c == '\r').reverse⟩

/-- `expectedPrefix` computed by `setOpenaiApiKey`: `"pplx-"` when the
chosen endpoint lowercases to `"perplexity"`, `"sk-"` otherwise. -/
def expectedPrefix (customEndpoint : String) : String :=
  if JsString.toLowerCase customEndpoint == "perplexity" then "pplx-" else "sk-"

/-- The api-key loop's exit condition in `setOpenaiApiKey`: the key is
accepted when it is non-empty, still non-empty after `trimNewLines`, and
starts with the endpoint-specific prefix. -/
def apiKeyInputValid (customEndpoint apiKey : String) : Bool :=
  !(apiKey == "") && !(trimNewLines apiKey == "") &&
    JsString.startsWith apiKey ( expectedPrefix customEndpoint)

/-- Terminal state of one run of the `setOpenaiApiKey` wizard over a finite
script of user responses. -/
inductive WizardExit where
  /-- A monitored prompt was dismissed: the function returned early. -/
  | cancelled
  /-- The script ran out while the wizard was still re-asking. -/
  | pending
  /-- All steps completed with valid input. -/
  | completed (customEndpoint gptVersion apiKey language : String)
deriving DecidableEq

/-- The four `setConfigurationValue` calls performed on full completion. -/
def finalWrites (e g k l : String) : List (String × String) :=
  [("openAI.customEndpoint", e), ("openAI.gptVersion", g),
   ("openAI.apiKey", k), ("openAI.language", l)]

/-- Language step: `showQuickPick` over the fixed language list, re-asked
while the selection is empty; `undefined` aborts the wizard.  The script
element `none` models a dismissed prompt, `some s` a response. -/
def languageLoop (e g k : String) :
    List (Option String) → WizardExit × List (String × String)
  | [] => (WizardExit.pending, [])
  | none :: _ => (WizardExit.cancelled, [])
  | some l :: rest =>
    if l == "" || trimNewLines l == "" then languageLoop e g k rest
    else (WizardExit.completed e g k l, finalWrites e g k l)

/-- API-key step: `showInputBox`, re-asked while the key is empty or lacks
the endpoint-specific prefix; `undefined` aborts the wizard. -/
def apiKeyLoop (e g : String) :
    List (Option String) → WizardExit × List (String × String)
  | [] => (WizardExit.pending, [])
  | none :: _ => (WizardExit.cancelled, [])
  | some k :: rest =>
    if k == "" || trimNewLines k == "" ||
        !(JsString.startsWith k ( expectedPrefix e)) then
      apiKeyLoop e g rest
    else languageLoop e g k rest

/-- GPT-version step: `showInputBox`, re-asked while the value is empty;
`undefined` aborts the wizard. -/
def gptVersionLoop (e : String) :
    List (Option String) → WizardExit × List (String × String)
  | [] => (WizardExit.pending, [])
  | none :: _ => (WizardExit.cancelled, [])
  | some v :: rest =>
    if v == "" || trimNewLines v == "" then gptVersionLoop e rest
    else apiKeyLoop e v rest

/-- Endpoint step: `showQuickPick` over `["openai", "perplexity", "HTTP URL"]`;
`undefined` aborts the wizard.  Choosing `"HTTP URL"` opens a second
`showInputBox` for the URL; a dismissed or invalid URL shows an error,
leaves `customEndpoint` unset, and loops back to the quick pick instead of
aborting. -/
def endpointLoop : List (Option String) → WizardExit × List (String × String)
  | [] => (WizardExit.pending, [])
  | none :: _ => (WizardExit.cancelled, [])
  | some sel :: rest =>
    if sel == "HTTP URL" then
      match rest with
      | [] => (WizardExit.pending, [])
      | none :: rest2 => endpointLoop rest2
      | some u :: rest2 =>
        if u == "" || trimNewLines u == "" ||
            !(JsString.startsWith u "http") then
          endpointLoop rest2
        else gptVersionLoop u rest2
    else if sel == "" then endpointLoop rest
    else gptVersionLoop sel rest

/-- `setOpenaiApiKey` of `src/unnamed/part_000` over a finite script of user
responses: runs the four sequential steps and returns the terminal state
together with the list of configuration writes performed. -/
def setOpenaiApiKey (inputs : List (Option String)) :
    WizardExit × List (String × String) :=
  endpointLoop inputs

/-- Comparison definition following the spec's words: configuration writes
happen exactly on full completion, and then are exactly the four values. -/
def writesOf : WizardExit → List (String × String)
  | WizardExit.completed e g k l => finalWrites e g k l
  | _ => []

end Wizard

/-!
## Theorems

Each claim `C1`..`C10` of the specification is settled by one theorem below
(plus a witness or counterexample where required).  Helper lemmas shared by
the proofs come first.
-/

/-- Helper: a resolved promise stays resolved — appending further events
after the first resolving one changes nothing. -/
theorem ApprovalFlow.firstResolution_append (tempFile : String)
    (events extra : List ApprovalFlow.EditorEvent) (r : ApprovalFlow.SaveResult)
    (h : ApprovalFlow.firstResolution tempFile events = some r) :
    ApprovalFlow.firstResolution tempFile (events ++ extra) = some r := by
  induction events with
  | nil => simp [ApprovalFlow.firstResolution] at h
  | cons e es ih =>
    rw [List.cons_append]
    rw [ApprovalFlow.firstResolution] at h ⊢
    cases hr : ApprovalFlow.resolveOf tempFile e with
    | none => rw [hr] at h; exact ih h
    | some r0 => rw [hr] at h; exact h

/-- C1: on every exit path of the approval flow (save with or without
edits, or closing the scratch view), `openTempFileWithMessage` deletes the
scratch temp file exactly once before returning, the single outcome is the
one determined by the first resolving event, and later events cannot
produce a second outcome or a second deletion. -/
theorem c1_openTempFile_single_outcome_and_cleanup
    (message tempFile : String) (events : List ApprovalFlow.EditorEvent)
    (r : ApprovalFlow.SaveResult) (trace : List ApprovalFlow.FsAction)
    (h : ApprovalFlow.openTempFileWithMessage message tempFile events = some (r, trace)) :
    trace.count (ApprovalFlow.FsAction.deleteFile tempFile) = 1 ∧
    ApprovalFlow.firstResolution tempFile events = some r ∧
    ∀ extra, ApprovalFlow.openTempFileWithMessage message tempFile (events ++ extra) =
      some (r, trace) := by
  rw [ApprovalFlow.openTempFileWithMessage] at h
  cases hr : ApprovalFlow.firstResolution tempFile events with
  | none => rw [hr] at h; exact absurd h (by simp)
  | some r0 =>
    rw [hr] at h
    have hr0 : r0 = r ∧
        [ApprovalFlow.FsAction.writeFile tempFile (ApprovalFlow.explainingHeader ++ message),
         ApprovalFlow.FsAction.openDoc tempFile,
         ApprovalFlow.FsAction.showDoc tempFile,
         ApprovalFlow.FsAction.deleteFile tempFile] = trace := by
      have := Option.some.inj h
      exact ⟨congrArg Prod.fst this, congrArg Prod.snd this⟩
    obtain ⟨hreq, htr⟩ := hr0
    subst hreq
    subst htr
    refine ⟨?_, rfl, ?_⟩
    · simp [List.count_cons, List.count_nil]
    · intro extra
      rw [ApprovalFlow.openTempFileWithMessage,
        ApprovalFlow.firstResolution_append tempFile events extra r0 hr]

/-- C1 witness: a concrete cancel path — the view becomes invisible first,
a later save of the temp file is ignored, the outcome is the cancel result
and the trace deletes the temp file (exactly once, as its single
`deleteFile` entry shows). -/
theorem c1_witness :
    ApprovalFlow.openTempFileWithMessage "feat: x" "/tmp/t.txt"
        ([ApprovalFlow.EditorEvent.visibleEditorsChanged []] ++
          [ApprovalFlow.EditorEvent.didSave "/tmp/t.txt" "ignored"]) =
      some (⟨false, false, none⟩,
        [ApprovalFlow.FsAction.writeFile "/tmp/t.txt"
          (ApprovalFlow.explainingHeader ++ "feat: x"),
         ApprovalFlow.FsAction.openDoc "/tmp/t.txt",
         ApprovalFlow.FsAction.showDoc "/tmp/t.txt",
         ApprovalFlow.FsAction.deleteFile "/tmp/t.txt"]) :=
  (c1_openTempFile_single_outcome_and_cleanup "feat: x" "/tmp/t.txt"
      [ApprovalFlow.EditorEvent.visibleEditorsChanged []] ⟨false, false, none⟩
      [ApprovalFlow.FsAction.writeFile "/tmp/t.txt"
        (ApprovalFlow.explainingHeader ++ "feat: x"),
       ApprovalFlow.FsAction.openDoc "/tmp/t.txt",
       ApprovalFlow.FsAction.showDoc "/tmp/t.txt",
       ApprovalFlow.FsAction.deleteFile "/tmp/t.txt"] rfl).2.2
    [ApprovalFlow.EditorEvent.didSave "/tmp/t.txt" "ignored"]

/-- C2 counterexample: the claim says the outcome is `AcceptedEdited`
(edited = true) if and only if the stripped, trimmed artifact content
differs from the generated text.  Saving the artifact completely unchanged
(header plus original message) gives a stripped text equal to the original
message, yet the save handler still resolves with `edited = true`: the
source sets `edited: true` unconditionally and never compares with the
original. -/
theorem c2_counterexample :
    ApprovalFlow.openTempFileWithMessage "fix: typo in README" "/tmp/t.txt"
        [ApprovalFlow.EditorEvent.didSave "/tmp/t.txt"
          (ApprovalFlow.explainingHeader ++ "fix: typo in README")] =
      some (⟨true, true, some "fix: typo in README"⟩,
        [ApprovalFlow.FsAction.writeFile "/tmp/t.txt"
          (ApprovalFlow.explainingHeader ++ "fix: typo in README"),
         ApprovalFlow.FsAction.openDoc "/tmp/t.txt",
         ApprovalFlow.FsAction.showDoc "/tmp/t.txt",
         ApprovalFlow.FsAction.deleteFile "/tmp/t.txt"]) ∧
    ApprovalFlow.processSavedText
        (ApprovalFlow.explainingHeader ++ "fix: typo in README") =
      "fix: typo in README" :=
  ⟨rfl, rfl⟩

/-- C2 amended: on every save of the scratch temp file the outcome has
`result = true` and `edited = true`, with `editedMessage` the stripped and
trimmed document text — regardless of whether that text differs from the
originally generated message.  (The distinction the claim describes is not
implemented: every save is reported as edited.) -/
theorem c2_save_always_edited
    (message tempFile text : String) :
    ApprovalFlow.openTempFileWithMessage message tempFile
        [ApprovalFlow.EditorEvent.didSave tempFile text] =
      some (⟨true, true, some (ApprovalFlow.processSavedText text)⟩,
        [ApprovalFlow.FsAction.writeFile tempFile
          (ApprovalFlow.explainingHeader ++ message),
         ApprovalFlow.FsAction.openDoc tempFile,
         ApprovalFlow.FsAction.showDoc tempFile,
         ApprovalFlow.FsAction.deleteFile tempFile]) := by
  simp [ApprovalFlow.openTempFileWithMessage, ApprovalFlow.firstResolution,
    ApprovalFlow.resolveOf]

/-- Helper: a successful `findLineNl` consumes at least the matched `\n`. -/
theorem ApprovalFlow.findLineNl_some_length :
    ∀ l r : List Char, ApprovalFlow.findLineNl l = some r → r.length < l.length := by
  intro l
  induction l with
  | nil => intro r h; simp [ApprovalFlow.findLineNl] at h
  | cons c cs ih =>
    intro r h
    rw [ApprovalFlow.findLineNl] at h
    split at h
    · cases h
      exact Nat.lt_succ_self _
    · split at h
      · exact absurd h (by simp)
      · exact Nat.lt_trans (ih r h) (Nat.lt_succ_self _)

/-- Helper: a successful `findCloseHash` consumes at least one character. -/
theorem ApprovalFlow.findCloseHash_some_length :
    ∀ l r : List Char, ApprovalFlow.findCloseHash l = some r → r.length < l.length := by
  intro l
  induction l with
  | nil => intro r h; simp [ApprovalFlow.findCloseHash] at h
  | cons c cs ih =>
    intro r h
    rw [ApprovalFlow.findCloseHash] at h
    split at h
    · exact absurd h (by simp)
    · split at h
      · exact Nat.lt_trans (ApprovalFlow.findLineNl_some_length cs r h)
          (Nat.lt_succ_self _)
      · exact Nat.lt_trans (ih r h) (Nat.lt_succ_self _)

/-- Helper: `stripGo` does not depend on the fuel as long as the fuel is at
least the length of the list (every step consumes at least one character). -/
theorem ApprovalFlow.stripGo_fuel_irrel :
    ∀ (f₁ f₂ : Nat) (l : List Char), l.length ≤ f₁ → l.length ≤ f₂ →
      ApprovalFlow.stripGo f₁ l = ApprovalFlow.stripGo f₂ l := by
  intro f₁
  induction f₁ with
  | zero =>
    intro f₂ l h1 _
    have : l = [] := List.eq_nil_of_length_eq_zero (Nat.le_zero.mp h1)
    subst this
    cases f₂ <;> rfl
  | succ n ih =>
    intro f₂ l h1 h2
    cases l with
    | nil => cases f₂ <;> rfl
    | cons c cs =>
      cases f₂ with
      | zero => simp at h2
      | succ m =>
        have hcs1 : cs.length ≤ n := by simp at h1; omega
        have hcs2 : cs.length ≤ m := by simp at h2; omega
        rw [ApprovalFlow.stripGo, ApprovalFlow.stripGo]
        split
        · cases hfc : ApprovalFlow.findCloseHash cs with
          | none => rw [ih m cs hcs1 hcs2]
          | some rest =>
            have hr := ApprovalFlow.findCloseHash_some_length cs rest hfc
            exact ih m rest (by omega) (by omega)
        · rw [ih m cs hcs1 hcs2]

/-- Helper: `findCloseHash` skips over characters that are neither `#` nor
line terminators. -/
theorem ApprovalFlow.findCloseHash_clean_append :
    ∀ xs : List Char,
      xs.all (fun c => !(c == '#') && !(c == '\n') && !(c == '\r')) = true →
      ∀ ys, ApprovalFlow.findCloseHash (xs ++ ys) = ApprovalFlow.findCloseHash ys := by
  intro xs
  induction xs with
  | nil => intro _ ys; rfl
  | cons c cs ih =>
    intro h ys
    rw [List.all_cons, Bool.and_eq_true] at h
    obtain ⟨hc, hcs⟩ := h
    rw [Bool.and_eq_true, Bool.and_eq_true] at hc
    obtain ⟨⟨hH, hN⟩, hR⟩ := hc
    rw [Bool.not_eq_true'] at hH hN hR
    rw [List.cons_append, ApprovalFlow.findCloseHash]
    rw [hN, hR, hH]
    simp only [Bool.or_self, Bool.false_or, if_neg (by simp : ¬false = true)]
    exact ih hcs ys

/-- Helper: stripping the header regex from the scratch file content removes
the whole explanatory header line (through its `\n`), keeps the following
blank line's `\n`, and continues on the rest of the content. -/
theorem ApprovalFlow.stripHeaderLines_headerAppend (l : List Char) :
    ApprovalFlow.stripHeaderLines (ApprovalFlow.explainingHeader.data ++ l) =
      '\n' :: ApprovalFlow.stripHeaderLines l := by
  have hdecomp : ApprovalFlow.explainingHeader.data =
      '#' :: ((" This is a generated commit message. You can edit it and save to approve it ").data ++
        ['#', '\n', '\n']) := rfl
  rw [ApprovalFlow.stripHeaderLines, hdecomp]
  rw [List.cons_append, List.append_assoc]
  have hfind :
      ApprovalFlow.findCloseHash
        ((" This is a generated commit message. You can edit it and save to approve it ").data ++
          (['#', '\n', '\n'] ++ l)) = some ('\n' :: l) := by
    rw [ApprovalFlow.findCloseHash_clean_append _ (by decide)]
    rfl
  rw [List.length_cons, ApprovalFlow.stripGo]
  rw [hfind]
  simp only [if_pos (by decide : ('#' == '#') = true)]
  rw [ApprovalFlow.stripGo_fuel_irrel _ (('\n' :: l).length) ('\n' :: l)
    (by simp) (by simp)]
  rw [List.length_cons, ApprovalFlow.stripGo]
  rw [if_neg (by decide : ¬(('\n' == '#') = true))]
  rfl

/-- Helper: trimming ignores a leading whitespace character. -/
theorem JsString.trimChars_cons_of_ws (c : Char)
    (h : JsString.isJsWhitespace c = true) (l : List Char) :
    JsString.trimChars (c :: l) = JsString.trimChars l := by
  simp [JsString.trimChars, List.dropWhile_cons, h]

/-- C3 counterexample: the claim quantifies over every non-empty generated
text, but a text that is not already trimmed is altered: for the generated
text `"feat: x\n"` the scratch artifact (header, blank line, text) strips
and trims to `"feat: x"`, which is not the original text. -/
theorem c3_counterexample :
    "feat: x\n" ≠ "" ∧
    ApprovalFlow.processSavedText (ApprovalFlow.explainingHeader ++ "feat: x\n") =
      "feat: x" ∧
    "feat: x" ≠ "feat: x\n" :=
  ⟨by decide, rfl, by decide⟩

/-- C3 amended: for every non-empty generated text that is a fixed point of
the header-stripping regex (no line of it matches `#.*#.*\n`) and of
JavaScript trimming (no leading or trailing whitespace), stripping and
trimming the unedited scratch artifact content (explanatory header line,
blank line, then the text) reproduces exactly the original text. -/
theorem c3_no_edit_roundtrip (message : String)
    (_hne : message ≠ "")
    (hstrip : ApprovalFlow.stripHeaderLines message.data = message.data)
    (htrim : JsString.trimChars message.data = message.data) :
    ApprovalFlow.processSavedText (ApprovalFlow.explainingHeader ++ message) =
      message := by
  rw [ApprovalFlow.processSavedText, String.data_append,
    ApprovalFlow.stripHeaderLines_headerAppend, hstrip,
    JsString.trimChars_cons_of_ws '\n' (by decide), htrim]

/-- C3 witness: the amended round trip at a concrete trimmed, header-free
generated text. -/
theorem c3_witness :
    ApprovalFlow.processSavedText
        (ApprovalFlow.explainingHeader ++ "feat: add login form") =
      "feat: add login form" :=
  c3_no_edit_roundtrip "feat: add login form" (by decide) (by decide) (by decide)

/-- C4: when the response has a first completion choice, `generate` throws
the "no commit message" generation error if and only if that choice's
message content is absent (`null`) or the empty string; any other content
is returned unchanged; and whenever generation fails, nothing reaches the
commit-message sink. -/
theorem c4_generate_error_iff :
    (∀ (data : ChatResponse) (c : ChatChoice) (rest : List ChatChoice),
      data.choices = c :: rest →
        ((ChatgptMsgGenerator.generate data =
            Except.error GenFailure.noCommitMessage) ↔
          (c.message.content = none ∨ c.message.content = some "")) ∧
        (∀ s : String, c.message.content = some s → s ≠ "" →
          ChatgptMsgGenerator.generate data = Except.ok s)) ∧
    (∀ (data : ChatResponse) (e : GenFailure),
      ChatgptMsgGenerator.generate data = Except.error e →
      ChatgptMsgGenerator.commitMessageSinkWrites data = []) := by
  constructor
  · intro data c rest h
    constructor
    · cases hc : c.message.content with
      | none => simp [ChatgptMsgGenerator.generate, h, hc]
      | some s =>
        by_cases hs : s = ""
        · subst hs; simp [ChatgptMsgGenerator.generate, h, hc]
        · simp [ChatgptMsgGenerator.generate, h, hc, hs]
    · intro s hsc hs
      simp [ChatgptMsgGenerator.generate, h, hsc, hs]
  · intro data e h
    rw [ChatgptMsgGenerator.commitMessageSinkWrites, h]

/-- C4 witness: a response with a non-empty first-choice content is
returned unchanged. -/
theorem c4_witness :
    ChatgptMsgGenerator.generate ⟨[⟨⟨some "feat: add parser"⟩⟩]⟩ =
      Except.ok "feat: add parser" :=
  (c4_generate_error_iff.1 ⟨[⟨⟨some "feat: add parser"⟩⟩]⟩
      ⟨⟨some "feat: add parser"⟩⟩ [] rfl).2 "feat: add parser" rfl (by decide)

/-- C10: `generate` reads `choices[0]` without a guard — a response with an
empty `choices` array fails with the runtime type error (not with the
specified "no commit message" error), while for any response with a
non-empty `choices` array the unguarded access is safe (the runtime type
error cannot occur). -/
theorem c10_unguarded_first_choice :
    (∀ data : ChatResponse, data.choices = [] →
      ChatgptMsgGenerator.generate data =
        Except.error GenFailure.runtimeTypeError) ∧
    (∀ data : ChatResponse, data.choices = [] →
      ChatgptMsgGenerator.generate data ≠
        Except.error GenFailure.noCommitMessage) ∧
    (∀ (data : ChatResponse) (c : ChatChoice) (rest : List ChatChoice),
      data.choices = c :: rest →
      ChatgptMsgGenerator.generate data ≠
        Except.error GenFailure.runtimeTypeError) := by
  refine ⟨?_, ?_, ?_⟩
  · intro data h
    rw [ChatgptMsgGenerator.generate, h]
  · intro data h
    rw [ChatgptMsgGenerator.generate, h]
    simp
  · intro data c rest h
    cases hc : c.message.content with
    | none => simp [ChatgptMsgGenerator.generate, h, hc]
    | some s =>
      by_cases hs : s = ""
      · subst hs; simp [ChatgptMsgGenerator.generate, h, hc]
      · simp [ChatgptMsgGenerator.generate, h, hc, hs]

/-- C10 witness: the empty-choices response raises the runtime type error. -/
theorem c10_witness :
    ChatgptMsgGenerator.generate ⟨[]⟩ =
      Except.error GenFailure.runtimeTypeError :=
  c10_unguarded_first_choice.1 ⟨[]⟩ rfl

/-- C5 counterexample: in the `chatgpt-msg-generator.ts` version of
`createInitMessagesPrompt` the user instruction message does not vary with
the requested language at all — two different languages yield the identical
preamble (the template hardcodes Korean and interpolates only the
delimiter), so the claim fails for that source version. -/
theorem c5_counterexample :
    ChatgptTs.createInitMessagesPrompt "English" "* " =
      ChatgptTs.createInitMessagesPrompt "French" "* " :=
  rfl

/-- C5 amended: in the `part_000` version the user instruction message is
genuinely parameterized by the language — it names the requested language
(the language occurs verbatim in the content) and distinct-length languages
give distinct contents — whereas in the `chatgpt-msg-generator.ts` version
the user instruction is independent of the language parameter. -/
theorem c5_language_parameterization :
    (∀ language delimeter : String,
      (Part000.createInitMessagesPrompt language delimeter)[1]? =
        some ⟨ChatRole.user, Part000.userContent language delimeter⟩ ∧
      ∃ a b : List Char,
        (Part000.userContent language delimeter).data =
          a ++ language.data ++ b) ∧
    (∀ l₁ l₂ d : String, l₁.data.length ≠ l₂.data.length →
      Part000.userContent l₁ d ≠ Part000.userContent l₂ d) ∧
    (∀ l₁ l₂ d : String,
      ChatgptTs.createInitMessagesPrompt l₁ d =
        ChatgptTs.createInitMessagesPrompt l₂ d) := by
  refine ⟨?_, ?_, ?_⟩
  · intro language delimeter
    refine ⟨rfl, Part000.userPre.data,
      (Part000.userMid1 ++ delimeter ++ Part000.userMid2 ++ language ++
        Part000.userMid3 ++ delimeter ++ Part000.userTail).data, ?_⟩
    simp [Part000.userContent, String.data_append, List.append_assoc]
  · intro l₁ l₂ d hne heq
    apply hne
    have := congrArg (fun s : String => s.data.length) heq
    simp only [Part000.userContent, String.data_append, List.length_append] at this
    omega
  · intro l₁ l₂ d
    rfl

/-- C5 witness: two concrete languages of different length give different
`part_000` user instructions. -/
theorem c5_witness :
    Part000.userContent "English" "* " ≠ Part000.userContent "Korean" "* " :=
  c5_language_parameterization.2.1 "English" "Korean" "* " (by decide)

/-- C6: for both source versions, `generateCommitMessageChatCompletionPrompt`
returns exactly three messages whose final message is a user message
carrying the diff string unmodified (no delimiter substitution inside the
diff), and equal inputs give the equal ordered message sequence. -/
theorem c6_prompt_three_messages_diff_last :
    (∀ diff language delimeter : String,
      (Part000.generateCommitMessageChatCompletionPrompt diff language delimeter).length = 3 ∧
      (Part000.generateCommitMessageChatCompletionPrompt diff language delimeter).getLast? =
        some ⟨ChatRole.user, diff⟩ ∧
      (ChatgptTs.generateCommitMessageChatCompletionPrompt diff language delimeter).length = 3 ∧
      (ChatgptTs.generateCommitMessageChatCompletionPrompt diff language delimeter).getLast? =
        some ⟨ChatRole.user, diff⟩) ∧
    (∀ d₁ l₁ del₁ d₂ l₂ del₂ : String, d₁ = d₂ → l₁ = l₂ → del₁ = del₂ →
      Part000.generateCommitMessageChatCompletionPrompt d₁ l₁ del₁ =
        Part000.generateCommitMessageChatCompletionPrompt d₂ l₂ del₂ ∧
      ChatgptTs.generateCommitMessageChatCompletionPrompt d₁ l₁ del₁ =
        ChatgptTs.generateCommitMessageChatCompletionPrompt d₂ l₂ del₂) := by
  constructor
  · intro diff language delimeter
    exact ⟨rfl, rfl, rfl, rfl⟩
  · intro d₁ l₁ del₁ d₂ l₂ del₂ hd hl hdel
    subst hd; subst hl; subst hdel
    exact ⟨rfl, rfl⟩

/-- C6 witness: the spec's example — the diff `+console.log('x')` with
language English and default delimiter `"* "` appears exactly as the final
message content, and equal inputs coincide. -/
theorem c6_witness :
    (ChatgptTs.generateCommitMessageChatCompletionPrompt
        "+console.log(\x27x\x27)" "English" "* ").getLast? =
      some ⟨ChatRole.user, "+console.log(\x27x\x27)"⟩ ∧
    Part000.generateCommitMessageChatCompletionPrompt
        "+console.log(\x27x\x27)" "English" "* " =
      Part000.generateCommitMessageChatCompletionPrompt
        "+console.log(\x27x\x27)" "English" "* " :=
  ⟨(c6_prompt_three_messages_diff_last.1 "+console.log(\x27x\x27)" "English" "* ").2.2.2,
    (c6_prompt_three_messages_diff_last.2 "+console.log(\x27x\x27)" "English" "* "
      "+console.log(\x27x\x27)" "English" "* " rfl rfl rfl).1⟩

/-- C7 counterexample: a literal HTTP URL is not used as-is — the
constructor lowercases (and trims) it first, so the configured endpoint
`"http://Example.com"` (a string starting with `"http"`) yields the base
URL `"http://example.com"`, not the configured string itself. -/
theorem c7_counterexample :
    JsString.startsWith "http://Example.com" "http" = true ∧
    ChatgptMsgGenerator.constructorBaseURL (some "http://Example.com") =
      some "http://example.com" ∧
    ChatgptMsgGenerator.constructorBaseURL (some "http://Example.com") ≠
      some "http://Example.com" :=
  ⟨by decide, by decide, by decide⟩

/-- C7 amended: writing `low(ce)` for the lowercased, trimmed form of the
configured endpoint `ce` — if `low(ce)` is `"perplexity"` the base URL is
the fixed `https://api.perplexity.ai`; otherwise if `low(ce)` starts with
`"http"` the base URL is `low(ce)` (the URL in lowercased, trimmed form,
not the configured string as-is); any other value, the empty string, or a
missing endpoint yields the default (no base URL). -/
theorem c7_endpoint_mapping :
    (∀ ce : String, ce ≠ "" →
      (JsString.trim (JsString.toLowerCase ce) = "perplexity" →
        ChatgptMsgGenerator.constructorBaseURL (some ce) =
          some "https://api.perplexity.ai") ∧
      (JsString.trim (JsString.toLowerCase ce) ≠ "perplexity" →
        JsString.startsWith (JsString.trim (JsString.toLowerCase ce)) "http" = true →
        ChatgptMsgGenerator.constructorBaseURL (some ce) =
          some (JsString.trim (JsString.toLowerCase ce))) ∧
      (JsString.trim (JsString.toLowerCase ce) ≠ "perplexity" →
        JsString.startsWith (JsString.trim (JsString.toLowerCase ce)) "http" = false →
        ChatgptMsgGenerator.constructorBaseURL (some ce) = none)) ∧
    ChatgptMsgGenerator.constructorBaseURL none = none ∧
    ChatgptMsgGenerator.constructorBaseURL (some "") = none := by
  refine ⟨?_, rfl, by decide⟩
  intro ce hce
  refine ⟨fun h1 => ?_, fun h1 h2 => ?_, fun h1 h2 => ?_⟩
  · simp [ChatgptMsgGenerator.constructorBaseURL, hce, h1]
  · simp [ChatgptMsgGenerator.constructorBaseURL, hce, h1, h2]
  · simp [ChatgptMsgGenerator.constructorBaseURL, hce, h1, h2]

/-- C7 witness: the named provider (here configured with a capital letter
and trailing space, which the constructor normalizes away) maps to the
fixed Perplexity URL. -/
theorem c7_witness :
    ChatgptMsgGenerator.constructorBaseURL (some "Perplexity ") =
      some "https://api.perplexity.ai" :=
  (c7_endpoint_mapping.1 "Perplexity " (by decide)).1 (by decide)

/-- C8: the API key entered in the `setOpenaiApiKey` wizard is accepted
only if it starts with the endpoint-specific required prefix — `"pplx-"`
when the chosen endpoint lowercases to `"perplexity"` and `"sk-"` for
every other endpoint; in particular, with endpoint `"perplexity"` the key
`"sk-abc"` is rejected and `"pplx-abc"` is accepted. -/
theorem c8_api_key_required_prefix :
    (∀ ep key : String, Wizard.apiKeyInputValid ep key = true →
      JsString.startsWith key ( Wizard.expectedPrefix ep) = true) ∧
    (∀ ep : String, JsString.toLowerCase ep = "perplexity" →
      Wizard.expectedPrefix ep = "pplx-") ∧
    (∀ ep : String, JsString.toLowerCase ep ≠ "perplexity" →
      Wizard.expectedPrefix ep = "sk-") ∧
    Wizard.apiKeyInputValid "perplexity" "sk-abc" = false ∧
    Wizard.apiKeyInputValid "perplexity" "pplx-abc" = true := by
  refine ⟨?_, ?_, ?_, by decide, by decide⟩
  · intro ep key h
    rw [Wizard.apiKeyInputValid, Bool.and_eq_true, Bool.and_eq_true] at h
    exact h.2
  · intro ep h
    simp [Wizard.expectedPrefix, h]
  · intro ep h
    simp [Wizard.expectedPrefix, h]

/-- C8 witness: the accepted Perplexity key indeed starts with the
required `"pplx-"` prefix. -/
theorem c8_witness :
    JsString.startsWith "pplx-abc" ( Wizard.expectedPrefix "perplexity") = true :=
  c8_api_key_required_prefix.1 "perplexity" "pplx-abc" (by decide)

/-- Helper: in the language step, writes happen exactly on completion. -/
theorem Wizard.languageLoop_writes (e g k : String) :
    ∀ inputs, (Wizard.languageLoop e g k inputs).2 =
      Wizard.writesOf (Wizard.languageLoop e g k inputs).1 := by
  intro inputs
  induction inputs with
  | nil => rfl
  | cons head tail ih =>
    cases head with
    | none => rfl
    | some l =>
      rw [Wizard.languageLoop]
      split
      · exact ih
      · rfl

/-- Helper: in the api-key step, writes happen exactly on completion. -/
theorem Wizard.apiKeyLoop_writes (e g : String) :
    ∀ inputs, (Wizard.apiKeyLoop e g inputs).2 =
      Wizard.writesOf (Wizard.apiKeyLoop e g inputs).1 := by
  intro inputs
  induction inputs with
  | nil => rfl
  | cons head tail ih =>
    cases head with
    | none => rfl
    | some k =>
      rw [Wizard.apiKeyLoop]
      split
      · exact ih
      · exact Wizard.languageLoop_writes e g k tail

/-- Helper: in the gpt-version step, writes happen exactly on completion. -/
theorem Wizard.gptVersionLoop_writes (e : String) :
    ∀ inputs, (Wizard.gptVersionLoop e inputs).2 =
      Wizard.writesOf (Wizard.gptVersionLoop e inputs).1 := by
  intro inputs
  induction inputs with
  | nil => rfl
  | cons head tail ih =>
    cases head with
    | none => rfl
    | some v =>
      rw [Wizard.gptVersionLoop]
      split
      · exact ih
      · exact Wizard.apiKeyLoop_writes e v tail

/-- Helper: over the whole wizard, writes happen exactly on completion. -/
theorem Wizard.endpointLoop_writes :
    ∀ inputs, (Wizard.endpointLoop inputs).2 =
      Wizard.writesOf (Wizard.endpointLoop inputs).1 := by
  have main : ∀ n inputs, List.length inputs ≤ n →
      (Wizard.endpointLoop inputs).2 =
        Wizard.writesOf (Wizard.endpointLoop inputs).1 := by
    intro n
    induction n with
    | zero =>
      intro inputs h
      have : inputs = [] := List.eq_nil_of_length_eq_zero (Nat.le_zero.mp h)
      subst this
      rfl
    | succ n ih =>
      intro inputs h
      cases inputs with
      | nil => rfl
      | cons head rest =>
        cases head with
        | none => rfl
        | some sel =>
          rw [Wizard.endpointLoop.eq_def]
          simp only
          split
          · cases rest with
            | nil => rfl
            | cons head2 rest2 =>
              cases head2 with
              | none =>
                show (Wizard.endpointLoop rest2).2 =
                  Wizard.writesOf (Wizard.endpointLoop rest2).1
                exact ih rest2 (by simp at h; omega)
              | some u =>
                show (if (u == "" || Wizard.trimNewLines u == "" ||
                      !(JsString.startsWith u "http")) = true then
                    Wizard.endpointLoop rest2
                  else Wizard.gptVersionLoop u rest2).2 =
                  Wizard.writesOf
                    (if (u == "" || Wizard.trimNewLines u == "" ||
                        !(JsString.startsWith u "http")) = true then
                      Wizard.endpointLoop rest2
                    else Wizard.gptVersionLoop u rest2).1
                split
                · exact ih rest2 (by simp at h; omega)
                · exact Wizard.gptVersionLoop_writes u rest2
          · split
            · exact ih rest (by simp at h; omega)
            · exact Wizard.gptVersionLoop_writes sel rest
  intro inputs
  exact main inputs.length inputs (Nat.le_refl _)

/-- C9 counterexample: dismissing the HTTP-URL input box (a step of the
wizard) does not abort the wizard — the endpoint quick pick is shown
again, and with subsequent valid input the wizard completes and writes all
four configuration values, even though a step was cancelled along the way.
The claim that cancelling any step makes the wizard return without writing
is therefore false for this step. -/
theorem c9_counterexample :
    Wizard.setOpenaiApiKey
        [some "HTTP URL", none, some "openai", some "gpt-4", some "sk-abc",
         some "English"] =
      (Wizard.WizardExit.completed "openai" "gpt-4" "sk-abc" "English",
       Wizard.finalWrites "openai" "gpt-4" "sk-abc" "English") := by
  decide

/-- C9 amended: dismissing the endpoint quick pick, the model input box,
the API-key input box, or the language quick pick aborts the wizard
immediately with no configuration writes; dismissing the HTTP-URL input
box instead re-asks the endpoint (behaving as a fresh wizard run on the
remaining script); and in every run the configuration writes are exactly
the four values, performed exactly when the wizard completes. -/
theorem c9_cancellation_and_writes :
    (∀ inputs, (Wizard.setOpenaiApiKey inputs).2 =
      Wizard.writesOf (Wizard.setOpenaiApiKey inputs).1) ∧
    (∀ rest, Wizard.setOpenaiApiKey (none :: rest) =
      (Wizard.WizardExit.cancelled, [])) ∧
    (∀ rest, Wizard.setOpenaiApiKey (some "HTTP URL" :: none :: rest) =
      Wizard.setOpenaiApiKey rest) ∧
    (∀ e rest, Wizard.gptVersionLoop e (none :: rest) =
      (Wizard.WizardExit.cancelled, [])) ∧
    (∀ e g rest, Wizard.apiKeyLoop e g (none :: rest) =
      (Wizard.WizardExit.cancelled, [])) ∧
    (∀ e g k rest, Wizard.languageLoop e g k (none :: rest) =
      (Wizard.WizardExit.cancelled, [])) :=
  ⟨Wizard.endpointLoop_writes, fun _ => rfl, fun _ => rfl,
    fun _ _ => rfl, fun _ _ _ => rfl, fun _ _ _ _ => rfl⟩
